import Mathlib

/-!
Verification of the identifier-resolution subsystem and command layer of a
command-line Favro client.

The command modules (`commands/card.py`, `commands/column.py`,
`commands/board.py`, `commands/org.py`, `cli.py`, `output/formatters.py`)
are embedded directly from the sources.  The resolver module
(`favro_cli/resolvers`) and the configuration store are not present in the
sources; their behaviour is modelled from the design specification
(sections 4 and 7), and every such definition is marked
`Modelled from the spec:` in its doc comment.
-/

namespace Favro

/-- Lower-case a string character by character (model of Python `str.lower`
restricted to ASCII, used for the case-insensitive name and email matching
described in the spec). -/
def lowerStr (s : String) : String :=
  String.mk (s.data.map Char.toLower)

/-- Whether a string contains a given character (model of Python `c in s`). -/
def strContains (s : String) (c : Char) : Bool :=
  s.data.contains c

/-- Numeric value of a list of decimal digit characters. -/
def digitsVal (cs : List Char) : Nat :=
  cs.foldl (fun acc c => acc * 10 + (c.toNat - 48)) 0

/-- Parse a sequential card reference: a `#` followed by digits, or purely
digits (spec 4.1).  Returns the sequential number, or `none` when the raw
string is not shaped as a sequential reference. -/
def seqRef (raw : String) : Option Nat :=
  let cs := match raw.data with
    | '#' :: rest => rest
    | cs => cs
  if cs.isEmpty then none
  else if cs.all Char.isDigit then some (digitsVal cs) else none

/-- Join a list of strings with a separator (model of Python `sep.join`). -/
def joinSep (sep : String) : List String → String
  | [] => ""
  | [x] => x
  | x :: y :: rest => x ++ sep ++ joinSep sep (y :: rest)

/-- Python truthiness of an optional string: `None` and the empty string are
falsy, every other string is truthy. -/
def truthy : Option String → Bool
  | none => false
  | some s => !(s == "")

/-- Model of the Python expression `a or b` on optional strings, as used by
the commands for `board_id or get_board_id()`. -/
def pyOr (a b : Option String) : Option String :=
  if truthy a then a else b

/-! ## Entity records (spec section 3, `api/models.py` shapes as used by the
commands in the sources) -/

/-- A board widget: `widget_common_id`, `name`, `type` (board or backlog),
`color`. -/
structure Widget where
  widgetCommonId : String
  name : String
  type : String
  color : String
deriving DecidableEq, Repr

/-- A column of a board. -/
structure Column where
  columnId : String
  name : String
  position : Nat
  cardCount : Nat
  widgetCommonId : String
deriving DecidableEq, Repr

/-- A card. -/
structure Card where
  cardId : String
  cardCommonId : String
  sequentialId : Nat
  name : String
  columnId : Option String
  widgetCommonId : Option String
deriving DecidableEq, Repr

/-- A user. -/
structure User where
  userId : String
  name : String
  email : String
deriving DecidableEq, Repr

/-! ## Resolution pipeline.
Modelled from the spec: the module `favro_cli/resolvers` is not among the
sources (only its callers are), so the classifier, matcher and resolver
below follow the words of spec sections 4.1-4.3. -/

/-- Modelled from the spec: a matching strategy of the identifier
classifier (spec 4.1). -/
inductive Strategy where
  | exactId
  | sequentialId
  | exactEmailCI
  | exactNameCI
deriving DecidableEq, Repr

/-- Modelled from the spec: the typed resolution failures of spec
section 7. -/
inductive ResolveError (ε : Type) where
  | notFound
  | ambiguous (candidates : List ε)
  | scopeRequired
deriving DecidableEq, Repr

/-- An upstream fetch-level failure of the API client (`FavroAuthError` or
`FavroAPIError` in the sources). -/
inductive FetchError where
  | authError (message : String)
  | apiError (message : String)
deriving DecidableEq, Repr

/-- Either a fetch-level failure or a typed resolution failure; the two
categories are kept distinct (spec section 7). -/
inductive Failure (ε : Type) where
  | fetch (e : FetchError)
  | res (e : ResolveError ε)
deriving DecidableEq, Repr

/-- Modelled from the spec: classifier for entity kinds resolved by ID or
name (Organization, Board, Column, Tag): ID shape gives `ExactId` only,
anything else the case-insensitive name strategy (spec 4.1).  The
kind-specific native-ID shape test is a parameter. -/
def classifyNamed (shape : String → Bool) (raw : String) : List Strategy :=
  if shape raw then [.exactId] else [.exactNameCI]

/-- Modelled from the spec: classifier for Card inputs: ID shape gives
`ExactId` only; a `#N` or bare-integer input gives `SequentialId`;
otherwise the name strategy (spec 4.1). -/
def classifyCard (shape : String → Bool) (raw : String) : List Strategy :=
  if shape raw then [.exactId]
  else if (seqRef raw).isSome then [.sequentialId]
  else [.exactNameCI]

/-- Modelled from the spec: classifier for User inputs: ID shape gives
`ExactId` only; an input containing `@` tries the email strategy before the
name strategy; otherwise names only (spec 4.1). -/
def classifyUser (shape : String → Bool) (raw : String) : List Strategy :=
  if shape raw then [.exactId]
  else if strContains raw '@' then [.exactEmailCI, .exactNameCI]
  else [.exactNameCI]

/-- Modelled from the spec: first strategy yielding a non-empty match list
wins; no merging across tiers (spec 4.1). -/
def firstMatch {ε : Type} (run : Strategy → List ε) : List Strategy → List ε
  | [] => []
  | s :: rest =>
    match run s with
    | [] => firstMatch run rest
    | m :: ms => m :: ms

/-- Modelled from the spec: the decision step of spec 4.3: exactly one
candidate is success, zero is `NotFound`, many is `Ambiguous` carrying the
full candidate list. -/
def decideMatches {ε : Type} : List ε → Except (ResolveError ε) ε
  | [] => .error .notFound
  | [e] => .ok e
  | e₁ :: e₂ :: rest => .error (.ambiguous (e₁ :: e₂ :: rest))

/-- Modelled from the spec: the classify-match-decide pipeline of spec
4.3, steps 3 and 4. -/
def resolveFrom {ε : Type} (run : Strategy → List ε) (strategies : List Strategy) :
    Except (ResolveError ε) ε :=
  decideMatches (firstMatch run strategies)

/-- Modelled from the spec: a resolver first performs the fetch; a
fetch-level failure is passed through unchanged as its own category and is
never turned into a resolution failure (spec sections 5 and 7). -/
def resolveWithFetch {ε : Type} (fetched : Except FetchError (List ε))
    (core : List ε → Except (ResolveError ε) ε) : Except (Failure ε) ε :=
  match fetched with
  | .error e => .error (.fetch e)
  | .ok cs =>
    match core cs with
    | .ok x => .ok x
    | .error e => .error (.res e)

/-! ## Per-kind matchers and resolvers (modelled from spec 4.2-4.3) -/

/-- Modelled from the spec: matcher for boards: `ExactId` is equality on the
canonical ID, the name strategy is case-folded equality (spec 4.2). -/
def matchBoard (s : Strategy) (raw : String) (cs : List Widget) : List Widget :=
  match s with
  | .exactId => cs.filter (fun w => w.widgetCommonId == raw)
  | .exactNameCI => cs.filter (fun w => lowerStr w.name == lowerStr raw)
  | _ => []

/-- Modelled from the spec: board resolution over a fetched candidate
list. -/
def resolveBoard (shape : String → Bool) (raw : String) (cs : List Widget) :
    Except (ResolveError Widget) Widget :=
  resolveFrom (fun s => matchBoard s raw cs) (classifyNamed shape raw)

/-- Modelled from the spec: board resolution including the fetch step. -/
def resolveBoardFetched (fetched : Except FetchError (List Widget))
    (shape : String → Bool) (raw : String) : Except (Failure Widget) Widget :=
  resolveWithFetch fetched (fun cs => resolveBoard shape raw cs)

/-- Modelled from the spec: per-resolver candidate cache of spec 4.4:
one memoized candidate list and a count of fetches performed. -/
structure BoardResolverState where
  cache : Option (List Widget)
  fetches : Nat
deriving DecidableEq, Repr

/-- Modelled from the spec: fetch the board list, reusing the cached list
when one is present (spec 4.4). -/
def fetchBoardsCached (env : List Widget) (st : BoardResolverState) :
    List Widget × BoardResolverState :=
  match st.cache with
  | some cs => (cs, st)
  | none => (env, ⟨some env, st.fetches + 1⟩)

/-- Modelled from the spec: stateful board resolution: fetch (or reuse the
cache), then classify, match and decide. -/
def resolveBoardS (shape : String → Bool) (raw : String) (env : List Widget)
    (st : BoardResolverState) :
    (Except (ResolveError Widget) Widget) × BoardResolverState :=
  let p := fetchBoardsCached env st
  (resolveBoard shape raw p.1, p.2)

/-- Modelled from the spec: matcher for columns. -/
def matchColumn (s : Strategy) (raw : String) (cs : List Column) : List Column :=
  match s with
  | .exactId => cs.filter (fun c => c.columnId == raw)
  | .exactNameCI => cs.filter (fun c => lowerStr c.name == lowerStr raw)
  | _ => []

/-- Modelled from the spec: column resolution (spec 4.3): a canonical-ID
input is looked up directly and never requires scope; a name input requires
a board scope (`ScopeRequired` when none is supplied) and is matched
case-insensitively against the columns of that board. -/
def resolveColumn (shape : String → Bool) (raw : String) (boardScope : Option String)
    (byId : String → Option Column) (columnsOf : String → List Column) :
    Except (ResolveError Column) Column :=
  if shape raw then
    match byId raw with
    | some c => .ok c
    | none => .error .notFound
  else
    match boardScope with
    | none => .error .scopeRequired
    | some b => resolveFrom (fun s => matchColumn s raw (columnsOf b)) (classifyNamed shape raw)

/-- Modelled from the spec: matcher for cards: `ExactId` on the canonical
ID, `SequentialId` on the sequential-number field after stripping a leading
`#`, name strategy case-insensitive (spec 4.2). -/
def matchCard (s : Strategy) (raw : String) (cs : List Card) : List Card :=
  match s with
  | .exactId => cs.filter (fun c => c.cardId == raw)
  | .sequentialId =>
    match seqRef raw with
    | some n => cs.filter (fun c => c.sequentialId == n)
    | none => []
  | .exactNameCI => cs.filter (fun c => lowerStr c.name == lowerStr raw)
  | _ => []

/-- Modelled from the spec: the card candidate set: a board scope restricts
the fetch to that board; without a scope the search spans all boards of the
organization (spec 4.3, cross-kind behavior). -/
def cardsInScope (boardScope : Option String) (allBoards : List String)
    (cardsOf : String → List Card) : List Card :=
  match boardScope with
  | some b => cardsOf b
  | none => allBoards.flatMap cardsOf

/-- Modelled from the spec: card resolution: classify, gather the in-scope
candidates, match and decide (spec 4.3). -/
def resolveCard (shape : String → Bool) (raw : String) (boardScope : Option String)
    (allBoards : List String) (cardsOf : String → List Card) :
    Except (ResolveError Card) Card :=
  resolveFrom
    (fun s => matchCard s raw (cardsInScope boardScope allBoards cardsOf))
    (classifyCard shape raw)

/-- Modelled from the spec: matcher for users: ID, then case-insensitive
email, then case-insensitive name (spec 4.2). -/
def matchUser (s : Strategy) (raw : String) (cs : List User) : List User :=
  match s with
  | .exactId => cs.filter (fun u => u.userId == raw)
  | .exactEmailCI => cs.filter (fun u => lowerStr u.email == lowerStr raw)
  | .exactNameCI => cs.filter (fun u => lowerStr u.name == lowerStr raw)
  | _ => []

/-- Modelled from the spec: user resolution over the organization's user
list (spec 4.3, user priority ID then email then name). -/
def resolveUser (shape : String → Bool) (raw : String) (users : List User) :
    Except (ResolveError User) User :=
  resolveFrom (fun s => matchUser s raw users) (classifyUser shape raw)

/-! ## Output formatting (`output/formatters.py`) -/

/-- Embedding of `output_error` from `output/formatters.py`: the error line
printed to stderr.  It is the same fixed rich-markup text in every output
mode; the function takes no JSON flag and consults no global state. -/
def renderError (message : String) : String :=
  "[red]Error:[/red] " ++ message

/-- Whether a string starts with an opening curly brace, the first
character of a JSON object. -/
def startsWithBrace (s : String) : Bool :=
  match s.data with
  | c :: _ => c == '\x7b'
  | [] => false

/-- A candidate rendered as `name (canonical id)`. -/
def candidateLabel (name id : String) : String :=
  name ++ " (" ++ id ++ ")"

/-- Modelled from the spec: the human-readable message carried by a
`ResolverError` (the resolver module is not among the sources); spec
section 7 requires `Ambiguous` to list every candidate and `ScopeRequired`
to name the missing parent flag. -/
def resMessage {ε : Type} (kind : String) (raw : String) (label : ε → String) :
    ResolveError ε → String
  | .notFound => kind ++ " not found: " ++ raw
  | .scopeRequired => kind ++ " name lookup requires a board scope; pass --board"
  | .ambiguous cs =>
    "Ambiguous " ++ kind ++ " " ++ raw ++ ": candidates: " ++ joinSep ", " (cs.map label)

/-- Resolution-failure message for boards. -/
def widgetResMessage (raw : String) : ResolveError Widget → String :=
  resMessage "board" raw (fun w => candidateLabel w.name w.widgetCommonId)

/-- Resolution-failure message for columns. -/
def columnResMessage (raw : String) : ResolveError Column → String :=
  resMessage "column" raw (fun c => candidateLabel c.name c.columnId)

/-- The message printed by the `except` clauses shared by every command in
the sources: `str(e)` for a `ResolverError`, `e.message` for a
`FavroAuthError`, and `"API error: " + e.message` for a `FavroAPIError`. -/
def failureMessage {ε : Type} (msg : ResolveError ε → String) : Failure ε → String
  | .res e => msg e
  | .fetch (.authError m) => m
  | .fetch (.apiError m) => "API error: " ++ m

/-! ## Command layer, embedded from `commands/board.py`,
`commands/card.py` and `commands/column.py`.  The API client and the
resolvers are injected as functions, exactly as the commands receive them
as collaborators. -/

/-- Insert a column into a position-sorted list. -/
def insertByPos (c : Column) : List Column → List Column
  | [] => [c]
  | d :: ds => if c.position ≤ d.position then c :: d :: ds else d :: insertByPos c ds

/-- Sort columns by `position` (`sorted(columns, key=lambda c: c.position)`
in the sources). -/
def sortByPosition : List Column → List Column
  | [] => []
  | c :: cs => insertByPos c (sortByPosition cs)

/-- Outcome of `board list`. -/
structure BoardListOut where
  exitCode : Nat
  shownBoards : List Widget
  stderrLines : List String
deriving DecidableEq, Repr

/-- Embedding of `list_boards` from `commands/board.py`: fetch the widgets,
keep only those of type `board`, and hand exactly that filtered list to
either the JSON formatter or the table formatter. -/
def boardListCmd (jsonOutput : Bool) (fetched : Except FetchError (List Widget)) :
    BoardListOut :=
  match fetched with
  | .error (.authError m) => ⟨1, [], [renderError m]⟩
  | .error (.apiError m) => ⟨1, [], [renderError ("API error: " ++ m)]⟩
  | .ok widgets => ⟨0, widgets.filter (fun w => w.type == "board"), []⟩

/-- Outcome of `board show`. -/
structure BoardShowOut where
  exitCode : Nat
  shownBoard : Option Widget
  shownColumns : List Column
  stderrLines : List String
deriving DecidableEq, Repr

/-- Embedding of `show` from `commands/board.py`: fall back to the stored
default board, fail when neither is given, resolve the board, fetch and
sort its columns, and render. -/
def boardShowCmd (jsonOutput : Bool) (arg stored : Option String)
    (resolveB : String → Except (Failure Widget) Widget)
    (getColumns : String → Except FetchError (List Column)) : BoardShowOut :=
  match pyOr arg stored with
  | none =>
    ⟨1, none, [], [renderError "No board specified and no default set. Run \x27favro board select <id>\x27 first."]⟩
  | some b =>
    if b == "" then
      ⟨1, none, [], [renderError "No board specified and no default set. Run \x27favro board select <id>\x27 first."]⟩
    else
      match resolveB b with
      | .error f => ⟨1, none, [], [renderError (failureMessage (widgetResMessage b) f)]⟩
      | .ok w =>
        match getColumns w.widgetCommonId with
        | .error (.authError m) => ⟨1, none, [], [renderError m]⟩
        | .error (.apiError m) => ⟨1, none, [], [renderError ("API error: " ++ m)]⟩
        | .ok cols => ⟨0, some w, sortByPosition cols, []⟩

/-- Outcome of `board select`: the exit code, the stored default board
after the command, and the stderr lines. -/
structure BoardSelectOut where
  exitCode : Nat
  storedBoard : Option String
  stderrLines : List String
deriving DecidableEq, Repr

/-- Embedding of `select` from `commands/board.py`: resolve the board and
persist its canonical ID with `set_board_id`; on failure the stored default
is left unchanged. -/
def boardSelectCmd (arg : String) (prior : Option String)
    (resolveB : String → Except (Failure Widget) Widget) : BoardSelectOut :=
  match resolveB arg with
  | .error f => ⟨1, prior, [renderError (failureMessage (widgetResMessage arg) f)]⟩
  | .ok w => ⟨0, some w.widgetCommonId, []⟩

/-- Outcome of `card list`. -/
structure CardListOut where
  exitCode : Nat
  shownCards : List Card
  stderrLines : List String
deriving DecidableEq, Repr

/-- Embedding of `list_cards` from `commands/card.py`: take the stored
default when `--board` is absent, require at least one filter, resolve the
board and then the column (the latter scoped by the resolved board), fetch
the cards and hand the same card list to the JSON or table formatter. -/
def cardListCmd (jsonMode : Bool) (boardOpt columnOpt collectionOpt : Option String)
    (stored : Option String)
    (resolveB : String → Except (Failure Widget) Widget)
    (resolveC : String → Option String → Except (Failure Column) Column)
    (getCards : Option String → Option String → Option String → Except FetchError (List Card)) :
    CardListOut :=
  let eff := pyOr boardOpt stored
  if !truthy eff && !truthy columnOpt && !truthy collectionOpt then
    ⟨1, [], [renderError "At least one filter is required: --board, --column, or --collection. Or set a default board with \x27favro board select <id>\x27."]⟩
  else
    let boardStep : Except (String × Failure Widget) (Option String) :=
      match eff with
      | none => .ok none
      | some b =>
        if b == "" then .ok none
        else
          match resolveB b with
          | .error f => .error (b, f)
          | .ok w => .ok (some w.widgetCommonId)
    match boardStep with
    | .error (b, f) => ⟨1, [], [renderError (failureMessage (widgetResMessage b) f)]⟩
    | .ok resolvedBoardId =>
      let columnStep : Except (String × Failure Column) (Option String) :=
        match columnOpt with
        | none => .ok none
        | some c =>
          if c == "" then .ok none
          else
            match resolveC c resolvedBoardId with
            | .error f => .error (c, f)
            | .ok col => .ok (some col.columnId)
      match columnStep with
      | .error (c, f) => ⟨1, [], [renderError (failureMessage (columnResMessage c) f)]⟩
      | .ok resolvedColumnId =>
        match getCards resolvedBoardId resolvedColumnId collectionOpt with
        | .error (.authError m) => ⟨1, [], [renderError m]⟩
        | .error (.apiError m) => ⟨1, [], [renderError ("API error: " ++ m)]⟩
        | .ok cards => ⟨0, cards, []⟩

/-- Outcome of `column rename`. -/
structure ColumnRenameOut where
  exitCode : Nat
  renamed : Option Column
  stderrLines : List String
deriving DecidableEq, Repr

/-- Embedding of `rename` from `commands/column.py`: take the stored default
when `--board` is absent, resolve the board when one is given (the column
resolver otherwise receives no scope), resolve the column, and update it. -/
def columnRenameCmd (jsonOutput : Bool) (columnArg newName : String)
    (boardOpt stored : Option String)
    (resolveB : String → Except (Failure Widget) Widget)
    (resolveC : String → Option String → Except (Failure Column) Column)
    (updateColumn : String → String → Except FetchError Column) : ColumnRenameOut :=
  let eff := pyOr boardOpt stored
  let boardStep : Except (String × Failure Widget) (Option String) :=
    match eff with
    | none => .ok none
    | some b =>
      if b == "" then .ok none
      else
        match resolveB b with
        | .error f => .error (b, f)
        | .ok w => .ok (some w.widgetCommonId)
  match boardStep with
  | .error (b, f) => ⟨1, none, [renderError (failureMessage (widgetResMessage b) f)]⟩
  | .ok rb =>
    match resolveC columnArg rb with
    | .error f => ⟨1, none, [renderError (failureMessage (columnResMessage columnArg) f)]⟩
    | .ok col =>
      match updateColumn col.columnId newName with
      | .error (.authError m) => ⟨1, none, [renderError m]⟩
      | .error (.apiError m) => ⟨1, none, [renderError ("API error: " ++ m)]⟩
      | .ok col₂ => ⟨0, some col₂, []⟩

/-! ## Sample entities used by the concrete witnesses -/

/-- Sample user. -/
def uAlice : User := ⟨"uid1", "Alice", "alice@example.com"⟩

/-- Sample user whose display name coincides with the email of `uAlice`. -/
def uImpostor : User := ⟨"uid2", "alice@example.com", "bob@example.com"⟩

/-- Sample board. -/
def wSprint1 : Widget := ⟨"b1", "Sprint", "board", "blue"⟩

/-- Second sample board with the same display name. -/
def wSprint2 : Widget := ⟨"b2", "Sprint", "board", "red"⟩

/-- Sample backlog widget. -/
def wBacklog : Widget := ⟨"b3", "Ideas", "backlog", "gray"⟩

/-- Sample column. -/
def colTodo : Column := ⟨"c1", "To Do", 0, 3, "b1"⟩

/-- Sample card numbered 12 on board `b1`. -/
def cardOnB1 : Card := ⟨"cA", "ccA", 12, "Fix bug", some "c1", some "b1"⟩

/-- Sample card numbered 12 on board `b2`. -/
def cardOnB2 : Card := ⟨"cB", "ccB", 12, "Other work", some "c9", some "b2"⟩

/-! ## Helper lemmas -/

theorem truthy_none : truthy none = false := rfl

theorem truthy_some_of_ne {s : String} (h : s ≠ "") : truthy (some s) = true := by
  simp [truthy, h]

theorem pyOr_none (b : Option String) : pyOr none b = b := rfl

theorem pyOr_some_of_ne {s : String} (h : s ≠ "") (b : Option String) :
    pyOr (some s) b = some s := by
  simp [pyOr, truthy_some_of_ne h]

theorem pyOr_some_empty (b : Option String) : pyOr (some "") b = b := rfl

theorem firstMatch_eq_nil_of_all {ε : Type} (run : Strategy → List ε) :
    ∀ strategies : List Strategy, (∀ s ∈ strategies, run s = []) →
      firstMatch run strategies = [] := by
  intro strategies
  induction strategies with
  | nil => intro _; rfl
  | cons s rest ih =>
    intro h
    have hs : run s = [] := h s (List.mem_cons_self s rest)
    have hrest : ∀ t ∈ rest, run t = [] := fun t ht => h t (List.mem_cons_of_mem s ht)
    simp [firstMatch, hs, ih hrest]

theorem decideMatches_ne_scopeRequired {ε : Type} (l : List ε) :
    decideMatches l ≠ .error .scopeRequired := by
  match l with
  | [] => simp [decideMatches]
  | [e] => simp [decideMatches]
  | e₁ :: e₂ :: rest => simp [decideMatches]

theorem decideMatches_ne_ambiguous_of_short {ε : Type} (l : List ε) (h : l.length ≤ 1)
    (cs : List ε) : decideMatches l ≠ .error (.ambiguous cs) := by
  match l with
  | [] => simp [decideMatches]
  | [e] => simp [decideMatches]
  | e₁ :: e₂ :: rest => simp at h

/-- C1: for every resolve call, after the first strategy yielding a non-empty
match list: exactly one candidate resolves to that entity, an empty match
list over all strategies fails with `NotFound`, and two or more candidates
fail with `Ambiguous` carrying the full candidate list, never a single
pick. -/
theorem resolve_decision_rule {ε : Type} (run : Strategy → List ε)
    (strategies : List Strategy) :
    (∀ e, firstMatch run strategies = [e] → resolveFrom run strategies = .ok e)
    ∧ (firstMatch run strategies = [] → resolveFrom run strategies = .error .notFound)
    ∧ ((∀ s ∈ strategies, run s = []) → resolveFrom run strategies = .error .notFound)
    ∧ (∀ e₁ e₂ rest, firstMatch run strategies = e₁ :: e₂ :: rest →
        resolveFrom run strategies = .error (.ambiguous (e₁ :: e₂ :: rest))) := by
  refine ⟨?_, ?_, ?_, ?_⟩
  · intro e h
    simp [resolveFrom, h, decideMatches]
  · intro h
    simp [resolveFrom, h, decideMatches]
  · intro h
    simp [resolveFrom, firstMatch_eq_nil_of_all run strategies h, decideMatches]
  · intro e₁ e₂ rest h
    simp [resolveFrom, h, decideMatches]

/-- C1 witness: a singleton name match on a concrete user list resolves to
that user, and an ambiguous two-board name match fails with both boards. -/
theorem resolve_decision_rule_check :
    firstMatch (fun s => matchUser s "Alice" [uAlice])
        (classifyUser (fun _ => false) "Alice") = [uAlice]
    ∧ resolveFrom (fun s => matchUser s "Alice" [uAlice])
        (classifyUser (fun _ => false) "Alice") = .ok uAlice := by
  constructor
  · decide
  · exact (resolve_decision_rule (fun s => matchUser s "Alice" [uAlice])
      (classifyUser (fun _ => false) "Alice")).1 uAlice (by decide)

/-- C6: a fetch-level failure is passed through by the resolver unchanged
(as the distinct `fetch` category) and is never presented as a resolution
failure such as `NotFound`. -/
theorem fetch_failure_passthrough {ε : Type} (e : FetchError)
    (core : List ε → Except (ResolveError ε) ε) (shape : String → Bool)
    (raw : String) (fetched : Except FetchError (List Widget))
    (hf : fetched = .error e) :
    resolveWithFetch (.error e) core = .error (.fetch e)
    ∧ (∀ r, resolveWithFetch (.error e) core ≠ .error (.res r))
    ∧ resolveBoardFetched fetched shape raw = .error (.fetch e) := by
  refine ⟨rfl, ?_, ?_⟩
  · intro r
    simp [resolveWithFetch]
  · simp [resolveBoardFetched, hf, resolveWithFetch]

/-- C6 witness: an authentication failure propagates unchanged through the
board resolver. -/
theorem fetch_failure_passthrough_check :
    resolveBoardFetched (.error (.authError "bad token")) (fun _ => false) "Sprint"
      = .error (.fetch (.authError "bad token")) :=
  (fetch_failure_passthrough (ε := Widget) (.authError "bad token")
    (fun _ => .error .notFound) (fun _ => false) "Sprint"
    (.error (.authError "bad token")) rfl).2.2

/-- C9: the `board list` command displays exactly the widgets of type
`board`: a widget is shown in either output mode precisely when the fetch
returned it and its type is `board`, so backlog widgets are excluded. -/
theorem board_list_filters_to_boards (jsonOutput : Bool) (widgets : List Widget)
    (w : Widget) :
    (boardListCmd jsonOutput (.ok widgets)).shownBoards
        = widgets.filter (fun v => v.type == "board")
    ∧ (w ∈ (boardListCmd jsonOutput (.ok widgets)).shownBoards
        ↔ w ∈ widgets ∧ w.type = "board") := by
  constructor
  · rfl
  · simp [boardListCmd, List.mem_filter]

/-- C9 witness: with one board and one backlog fetched, only the board is
shown, in both output modes. -/
theorem board_list_filters_to_boards_check :
    (boardListCmd true (.ok [wSprint1, wBacklog])).shownBoards = [wSprint1]
    ∧ (wBacklog ∈ (boardListCmd true (.ok [wSprint1, wBacklog])).shownBoards
        ↔ wBacklog ∈ [wSprint1, wBacklog] ∧ wBacklog.type = "board") := by
  constructor
  · decide
  · exact (board_list_filters_to_boards true [wSprint1, wBacklog] wBacklog).2

/-- C2: an ID-shaped input is classified as `ExactId` only (no name
matching); with unique canonical IDs the stateful board resolver never
fails with `Ambiguous` or `ScopeRequired`; and a repeated resolve against
the same resolver instance reuses the cache (no second fetch) and returns
the same result. -/
theorem canonical_id_resolution (shape : String → Bool) (raw : String)
    (env : List Widget) (hshape : shape raw = true)
    (huniq : (env.filter (fun w => w.widgetCommonId == raw)).length ≤ 1) :
    classifyNamed shape raw = [.exactId]
    ∧ (resolveBoardS shape raw env ⟨none, 0⟩).1
        = (resolveBoardS shape raw env (resolveBoardS shape raw env ⟨none, 0⟩).2).1
    ∧ (resolveBoardS shape raw env (resolveBoardS shape raw env ⟨none, 0⟩).2).2.fetches
        = (resolveBoardS shape raw env ⟨none, 0⟩).2.fetches
    ∧ (∀ cs, (resolveBoardS shape raw env ⟨none, 0⟩).1 ≠ .error (.ambiguous cs))
    ∧ (resolveBoardS shape raw env ⟨none, 0⟩).1 ≠ .error .scopeRequired := by
  have hclass : classifyNamed shape raw = [.exactId] := by
    simp [classifyNamed, hshape]
  have hfirst : (resolveBoardS shape raw env ⟨none, 0⟩).1
      = decideMatches (firstMatch (fun s => matchBoard s raw env) [.exactId]) := by
    simp [resolveBoardS, fetchBoardsCached, resolveBoard, resolveFrom, hclass]
  refine ⟨hclass, rfl, rfl, ?_, ?_⟩
  · intro cs
    rw [hfirst]
    rcases hfil : env.filter (fun w => w.widgetCommonId == raw) with _ | ⟨w, tail⟩
    · simp [firstMatch, matchBoard, hfil, decideMatches]
    · rcases tail with _ | ⟨w₂, rest⟩
      · simp [firstMatch, matchBoard, hfil, decideMatches]
      · rw [hfil] at huniq
        simp at huniq
  · rw [hfirst]
    exact decideMatches_ne_scopeRequired _

/-- C2 witness: resolving the concrete canonical ID `b1` against two boards
is classified `ExactId` only, and the second resolve on the same resolver
instance returns the same result without fetching again. -/
theorem canonical_id_resolution_check :
    ((fun s => s == "b1") "b1" : Bool) = true
    ∧ (([wSprint1, wSprint2].filter (fun w => w.widgetCommonId == "b1")).length ≤ 1)
    ∧ classifyNamed (fun s => s == "b1") "b1" = [.exactId]
    ∧ (resolveBoardS (fun s => s == "b1") "b1" [wSprint1, wSprint2] ⟨none, 0⟩).1
        = (resolveBoardS (fun s => s == "b1") "b1" [wSprint1, wSprint2]
            (resolveBoardS (fun s => s == "b1") "b1" [wSprint1, wSprint2] ⟨none, 0⟩).2).1 := by
  refine ⟨by decide, by decide, ?_, ?_⟩
  · exact (canonical_id_resolution (fun s => s == "b1") "b1" [wSprint1, wSprint2]
      (by decide) (by decide)).1
  · exact (canonical_id_resolution (fun s => s == "b1") "b1" [wSprint1, wSprint2]
      (by decide) (by decide)).2.1

/-- C3: a sequential reference (`#N` or bare digits) scoped to a board
holding exactly one card numbered `N` resolves to that card; without a
board scope the candidate set spans all boards, and when two boards each
hold a card numbered `N` the resolution fails with `Ambiguous` listing both
cards. -/
theorem sequential_card_resolution (shape : String → Bool) (raw : String) (n : Nat)
    (b b₁ b₂ : String) (c c₁ c₂ : Card) (allBoards : List String)
    (cardsOf : String → List Card)
    (hshape : shape raw = false) (hseq : seqRef raw = some n) :
    ((cardsOf b).filter (fun x => x.sequentialId == n) = [c] →
        resolveCard shape raw (some b) allBoards cardsOf = .ok c)
    ∧ cardsInScope none allBoards cardsOf = allBoards.flatMap cardsOf
    ∧ ((cardsOf b₁).filter (fun x => x.sequentialId == n) = [c₁] →
       (cardsOf b₂).filter (fun x => x.sequentialId == n) = [c₂] →
        resolveCard shape raw none [b₁, b₂] cardsOf
          = .error (.ambiguous [c₁, c₂])) := by
  have hclass : classifyCard shape raw = [.sequentialId] := by
    simp [classifyCard, hshape, hseq]
  refine ⟨?_, rfl, ?_⟩
  · intro h₁
    simp [resolveCard, hclass, resolveFrom, firstMatch, matchCard, hseq,
      cardsInScope, h₁, decideMatches]
  · intro h₁ h₂
    simp [resolveCard, hclass, resolveFrom, firstMatch, matchCard, hseq,
      cardsInScope, List.filter_append, h₁, h₂, decideMatches]

/-- C3 witness: `#12` on board `b1` resolves to the unique card numbered 12
there; unscoped, with boards `b1` and `b2` each holding a card numbered 12,
resolution is ambiguous with both cards. -/
theorem sequential_card_resolution_check :
    seqRef "#12" = some 12
    ∧ resolveCard (fun _ => false) "#12" (some "b1") ["b1", "b2"]
        (fun s => if s = "b1" then [cardOnB1] else if s = "b2" then [cardOnB2] else [])
        = .ok cardOnB1
    ∧ resolveCard (fun _ => false) "#12" none ["b1", "b2"]
        (fun s => if s = "b1" then [cardOnB1] else if s = "b2" then [cardOnB2] else [])
        = .error (.ambiguous [cardOnB1, cardOnB2]) := by
  refine ⟨by decide, ?_, ?_⟩
  · exact (sequential_card_resolution (fun _ => false) "#12" 12 "b1" "b1" "b2"
      cardOnB1 cardOnB1 cardOnB2 ["b1", "b2"]
      (fun s => if s = "b1" then [cardOnB1] else if s = "b2" then [cardOnB2] else [])
      rfl (by decide)).1 (by decide)
  · exact (sequential_card_resolution (fun _ => false) "#12" 12 "b1" "b1" "b2"
      cardOnB1 cardOnB1 cardOnB2 ["b1", "b2"]
      (fun s => if s = "b1" then [cardOnB1] else if s = "b2" then [cardOnB2] else [])
      rfl (by decide)).2.2 (by decide) (by decide)

/-- C4: a name-shaped input to Column resolution with no board scope fails
with `ScopeRequired` whatever columns exist anywhere (in particular even
when exactly one board has a column of that name), while an ID-shaped
input never yields `ScopeRequired` under any scope. -/
theorem column_name_requires_scope (shape : String → Bool) (raw : String)
    (byId : String → Option Column) (columnsOf : String → List Column) :
    (shape raw = false →
        resolveColumn shape raw none byId columnsOf = .error .scopeRequired)
    ∧ (∀ scope, shape raw = true →
        resolveColumn shape raw scope byId columnsOf ≠ .error .scopeRequired) := by
  constructor
  · intro h
    simp [resolveColumn, h]
  · intro scope h
    rcases hb : byId raw with _ | c <;> simp [resolveColumn, h, hb]

/-- C4 witness: resolving the column name `To Do` with no board scope fails
with `ScopeRequired` although exactly one board has such a column, while
resolving the ID `c1` without scope succeeds. -/
theorem column_name_requires_scope_check :
    resolveColumn (fun s => s == "c1") "To Do" none
        (fun i => if i = "c1" then some colTodo else none)
        (fun bd => if bd = "b1" then [colTodo] else [])
      = .error .scopeRequired
    ∧ resolveColumn (fun s => s == "c1") "c1" none
        (fun i => if i = "c1" then some colTodo else none)
        (fun bd => if bd = "b1" then [colTodo] else [])
      ≠ .error .scopeRequired := by
  constructor
  · exact (column_name_requires_scope (fun s => s == "c1") "To Do"
      (fun i => if i = "c1" then some colTodo else none)
      (fun bd => if bd = "b1" then [colTodo] else [])).1 (by decide)
  · exact (column_name_requires_scope (fun s => s == "c1") "c1"
      (fun i => if i = "c1" then some colTodo else none)
      (fun bd => if bd = "b1" then [colTodo] else [])).2 none (by decide)

/-- C5: user strategies apply in the order ID, email, name: an ID-shaped
input uses `ExactId` only; an input containing `@` tries the email strategy
first, so a unique case-insensitive email match wins whatever the display
names are; an input without `@` is matched against names only. -/
theorem user_resolution_priority (shape : String → Bool) (raw : String)
    (users : List User) :
    (shape raw = true → classifyUser shape raw = [.exactId])
    ∧ (shape raw = false → strContains raw '@' = true →
        classifyUser shape raw = [.exactEmailCI, .exactNameCI]
        ∧ ∀ u, users.filter (fun v => lowerStr v.email == lowerStr raw) = [u] →
            resolveUser shape raw users = .ok u)
    ∧ (shape raw = false → strContains raw '@' = false →
        classifyUser shape raw = [.exactNameCI]) := by
  refine ⟨?_, ?_, ?_⟩
  · intro h
    simp [classifyUser, h]
  · intro h₁ h₂
    have hclass : classifyUser shape raw = [.exactEmailCI, .exactNameCI] := by
      simp [classifyUser, h₁, h₂]
    refine ⟨hclass, ?_⟩
    intro u hu
    simp [resolveUser, resolveFrom, hclass, firstMatch, matchUser, hu, decideMatches]
  · intro h₁ h₂
    simp [classifyUser, h₁, h₂]

/-- C5 witness: the email-shaped input `alice@example.com` resolves to the
user with that email although another user placed earlier in the list has
exactly that display name. -/
theorem user_resolution_priority_check :
    strContains "alice@example.com" '@' = true
    ∧ (lowerStr uImpostor.name == lowerStr "alice@example.com") = true
    ∧ [uImpostor, uAlice].filter
        (fun v => lowerStr v.email == lowerStr "alice@example.com") = [uAlice]
    ∧ resolveUser (fun _ => false) "alice@example.com" [uImpostor, uAlice]
        = .ok uAlice := by
  refine ⟨by decide, by decide, by decide, ?_⟩
  exact ((user_resolution_priority (fun _ => false) "alice@example.com"
    [uImpostor, uAlice]).2.1 rfl (by decide)).2 uAlice (by decide)

theorem joinSep_decomp (sep x : String) :
    ∀ l : List String, x ∈ l → ∃ p q, joinSep sep l = p ++ x ++ q := by
  intro l
  induction l with
  | nil => intro h; cases h
  | cons y ys ih =>
    intro h
    rcases List.mem_cons.mp h with rfl | hmem
    · cases ys with
      | nil =>
        exact ⟨"", "", by simp [joinSep, String.empty_append, String.append_empty]⟩
      | cons z zs =>
        refine ⟨"", sep ++ joinSep sep (z :: zs), ?_⟩
        simp [joinSep, String.empty_append, String.append_assoc]
    · cases ys with
      | nil => cases hmem
      | cons z zs =>
        obtain ⟨p, q, hp⟩ := ih hmem
        refine ⟨y ++ sep ++ p, q, ?_⟩
        simp [joinSep, hp, String.append_assoc]

theorem resMessage_lists_candidates {ε : Type} (kind raw : String)
    (label : ε → String) (cs : List ε) (w : ε) (hw : w ∈ cs) :
    ∃ p q, resMessage kind raw label (.ambiguous cs) = p ++ label w ++ q := by
  obtain ⟨p, q, hp⟩ :=
    joinSep_decomp ", " (label w) (cs.map label) (List.mem_map_of_mem label hw)
  refine ⟨"Ambiguous " ++ kind ++ " " ++ raw ++ ": candidates: " ++ p, q, ?_⟩
  simp [resMessage, hp, String.append_assoc]

/-- C7: a resolution failure in any resolve step of `card list`,
`board show` or `column rename` makes the command print the human-readable
error line to stderr and stop with exit code 1: nothing is displayed or
updated past the failure. -/
theorem resolution_failure_aborts (j : Bool) (b colArg nn : String)
    (columnOpt collectionOpt stored : Option String)
    (rB : String → Except (Failure Widget) Widget)
    (rC : String → Option String → Except (Failure Column) Column)
    (gCards : Option String → Option String → Option String → Except FetchError (List Card))
    (gCols : String → Except FetchError (List Column))
    (upd : String → String → Except FetchError Column)
    (e : ResolveError Widget) (ec : ResolveError Column)
    (hb : b ≠ "") :
    (rB b = .error (.res e) →
      cardListCmd j (some b) columnOpt collectionOpt stored rB rC gCards
        = ⟨1, [], [renderError (widgetResMessage b e)]⟩)
    ∧ (rB b = .error (.res e) →
      boardShowCmd j (some b) stored rB gCols
        = ⟨1, none, [], [renderError (widgetResMessage b e)]⟩)
    ∧ (rC colArg none = .error (.res ec) →
      columnRenameCmd j colArg nn none none rB rC upd
        = ⟨1, none, [renderError (columnResMessage colArg ec)]⟩) := by
  refine ⟨?_, ?_, ?_⟩
  · intro h
    simp [cardListCmd, pyOr_some_of_ne hb, truthy_some_of_ne hb, hb, h, failureMessage]
  · intro h
    simp [boardShowCmd, pyOr_some_of_ne hb, hb, h, failureMessage]
  · intro h
    simp [columnRenameCmd, pyOr_none, h, failureMessage]

/-- C7 witness: concrete failing resolutions make `card list` and
`column rename` exit with code 1 and an error line. -/
theorem resolution_failure_aborts_check :
    cardListCmd false (some "Sprint") none none none
        (fun _ => .error (.res .notFound)) (fun _ _ => .error (.res .scopeRequired))
        (fun _ _ _ => .ok [])
      = ⟨1, [], [renderError (widgetResMessage "Sprint" .notFound)]⟩
    ∧ columnRenameCmd false "To Do" "Doing" none none
        (fun _ => .error (.res .notFound)) (fun _ _ => .error (.res .scopeRequired))
        (fun _ _ => .ok colTodo)
      = ⟨1, none, [renderError (columnResMessage "To Do" .scopeRequired)]⟩ := by
  constructor
  · exact (resolution_failure_aborts false "Sprint" "To Do" "Doing" none none none
      (fun _ => .error (.res .notFound)) (fun _ _ => .error (.res .scopeRequired))
      (fun _ _ _ => .ok []) (fun _ => .ok []) (fun _ _ => .ok colTodo)
      .notFound .scopeRequired (by decide)).1 rfl
  · exact (resolution_failure_aborts false "Sprint" "To Do" "Doing" none none none
      (fun _ => .error (.res .notFound)) (fun _ _ => .error (.res .scopeRequired))
      (fun _ _ _ => .ok []) (fun _ => .ok []) (fun _ _ => .ok colTodo)
      .notFound .scopeRequired (by decide)).2.2 rfl

/-- Resolver used by the C8 counterexample: every board lookup is
ambiguous between the two sample boards. -/
def ambResolver : String → Except (Failure Widget) Widget :=
  fun _ => .error (.res (.ambiguous [wSprint1, wSprint2]))

/-- Column resolver stub used by concrete command runs. -/
def noColResolver : String → Option String → Except (Failure Column) Column :=
  fun _ _ => .error (.res .notFound)

/-- Card fetch stub used by concrete command runs. -/
def noCards : Option String → Option String → Option String → Except FetchError (List Card) :=
  fun _ _ _ => .ok []

/-- C8 counterexample: with the `--json` flag set, a resolution failure is
emitted by `output_error` as the same plain rich-markup line as without the
flag; it is not a JSON object (it does not even start with a brace), so no
structured JSON error is produced. -/
theorem json_error_not_structured :
    (cardListCmd true (some "Sprint") none none none
        ambResolver noColResolver noCards).stderrLines
      = [renderError (widgetResMessage "Sprint" (.ambiguous [wSprint1, wSprint2]))]
    ∧ cardListCmd true (some "Sprint") none none none ambResolver noColResolver noCards
      = cardListCmd false (some "Sprint") none none none ambResolver noColResolver noCards
    ∧ (∀ line ∈ (cardListCmd true (some "Sprint") none none none
        ambResolver noColResolver noCards).stderrLines,
        startsWithBrace line = false) := by
  refine ⟨by decide, rfl, by decide⟩

/-- C8 amended: a resolution failure is always printed as the plain
human-readable `output_error` line, identically with and without the
`--json` flag, and the (spec-modelled) `Ambiguous` message lists every
candidate as `name (canonical id)`. -/
theorem error_output_mode_independent (j : Bool) (b : String)
    (columnOpt collectionOpt stored : Option String)
    (rB : String → Except (Failure Widget) Widget)
    (rC : String → Option String → Except (Failure Column) Column)
    (g : Option String → Option String → Option String → Except FetchError (List Card))
    (cs : List Widget) (hb : b ≠ "")
    (hres : rB b = .error (.res (.ambiguous cs))) :
    (cardListCmd j (some b) columnOpt collectionOpt stored rB rC g).stderrLines
      = [renderError (widgetResMessage b (.ambiguous cs))]
    ∧ cardListCmd true (some b) columnOpt collectionOpt stored rB rC g
      = cardListCmd false (some b) columnOpt collectionOpt stored rB rC g
    ∧ ∀ w ∈ cs, ∃ p q, widgetResMessage b (.ambiguous cs)
        = p ++ candidateLabel w.name w.widgetCommonId ++ q := by
  refine ⟨?_, rfl, ?_⟩
  · simp [cardListCmd, pyOr_some_of_ne hb, truthy_some_of_ne hb, hb, hres, failureMessage]
  · intro w hw
    exact resMessage_lists_candidates "board" b
      (fun v => candidateLabel v.name v.widgetCommonId) cs w hw

/-- C8 amended witness: a concrete ambiguous board failure produces the
plain error line in JSON mode and its message carries both candidates. -/
theorem error_output_mode_independent_check :
    ambResolver "Sprint" = .error (.res (.ambiguous [wSprint1, wSprint2]))
    ∧ (cardListCmd true (some "Sprint") none none none
        ambResolver noColResolver noCards).stderrLines
      = [renderError (widgetResMessage "Sprint" (.ambiguous [wSprint1, wSprint2]))]
    ∧ ∃ p q, widgetResMessage "Sprint" (.ambiguous [wSprint1, wSprint2])
        = p ++ candidateLabel wSprint2.name wSprint2.widgetCommonId ++ q := by
  refine ⟨rfl, ?_, ?_⟩
  · exact (error_output_mode_independent true "Sprint" none none none
      ambResolver noColResolver noCards [wSprint1, wSprint2] (by decide) rfl).1
  · exact (error_output_mode_independent true "Sprint" none none none
      ambResolver noColResolver noCards [wSprint1, wSprint2] (by decide) rfl).2.2
      wSprint2 (by decide)

theorem cardListCmd_eff_congr (j : Bool) (columnOpt collectionOpt : Option String)
    (rB : String → Except (Failure Widget) Widget)
    (rC : String → Option String → Except (Failure Column) Column)
    (g : Option String → Option String → Option String → Except FetchError (List Card))
    (a₁ s₁ a₂ s₂ : Option String) (h : pyOr a₁ s₁ = pyOr a₂ s₂) :
    cardListCmd j a₁ columnOpt collectionOpt s₁ rB rC g
      = cardListCmd j a₂ columnOpt collectionOpt s₂ rB rC g := by
  simp only [cardListCmd, h]

theorem columnRenameCmd_eff_congr (j : Bool) (colArg nn : String)
    (rB : String → Except (Failure Widget) Widget)
    (rC : String → Option String → Except (Failure Column) Column)
    (upd : String → String → Except FetchError Column)
    (a₁ s₁ a₂ s₂ : Option String) (h : pyOr a₁ s₁ = pyOr a₂ s₂) :
    columnRenameCmd j colArg nn a₁ s₁ rB rC upd
      = columnRenameCmd j colArg nn a₂ s₂ rB rC upd := by
  simp only [columnRenameCmd, h]

/-- C10 counterexample: the supplied option `--board ""` is present yet the
stored default takes precedence: the falsy-based fallback picks the stored
board, and `card list` resolves the stored board `B`, not the supplied
empty option. -/
theorem board_option_precedence_counterexample :
    pyOr (some "") (some "b1") = some "b1"
    ∧ pyOr (some "") (some "b1") ≠ some ""
    ∧ (cardListCmd false (some "") none none (some "B")
        (fun _ => .error (.res .notFound)) noColResolver noCards).stderrLines
      = [renderError (widgetResMessage "B" .notFound)] := by
  refine ⟨rfl, by decide, by decide⟩

/-- C10 amended: without `--board`, card and column commands use the stored
default board exactly as if it had been passed; a present non-empty
`--board` makes the stored default irrelevant; and `board select` persists
the resolved canonical board ID that later commands fall back to. -/
theorem default_board_fallback (j : Bool) (d s colArg nn arg : String)
    (columnOpt collectionOpt stored prior : Option String)
    (rB : String → Except (Failure Widget) Widget)
    (rC : String → Option String → Except (Failure Column) Column)
    (g : Option String → Option String → Option String → Except FetchError (List Card))
    (upd : String → String → Except FetchError Column) (w : Widget) :
    (d ≠ "" →
      cardListCmd j none columnOpt collectionOpt (some d) rB rC g
        = cardListCmd j (some d) columnOpt collectionOpt none rB rC g)
    ∧ (d ≠ "" →
      columnRenameCmd j colArg nn none (some d) rB rC upd
        = columnRenameCmd j colArg nn (some d) none rB rC upd)
    ∧ (s ≠ "" →
      cardListCmd j (some s) columnOpt collectionOpt stored rB rC g
        = cardListCmd j (some s) columnOpt collectionOpt none rB rC g)
    ∧ (s ≠ "" →
      columnRenameCmd j colArg nn (some s) stored rB rC upd
        = columnRenameCmd j colArg nn (some s) none rB rC upd)
    ∧ (rB arg = .ok w →
      (boardSelectCmd arg prior rB).storedBoard = some w.widgetCommonId) := by
  refine ⟨?_, ?_, ?_, ?_, ?_⟩
  · intro hd
    exact cardListCmd_eff_congr j columnOpt collectionOpt rB rC g none (some d)
      (some d) none (by rw [pyOr_none, pyOr_some_of_ne hd])
  · intro hd
    exact columnRenameCmd_eff_congr j colArg nn rB rC upd none (some d)
      (some d) none (by rw [pyOr_none, pyOr_some_of_ne hd])
  · intro hs
    exact cardListCmd_eff_congr j columnOpt collectionOpt rB rC g (some s) stored
      (some s) none (by rw [pyOr_some_of_ne hs, pyOr_some_of_ne hs])
  · intro hs
    exact columnRenameCmd_eff_congr j colArg nn rB rC upd (some s) stored
      (some s) none (by rw [pyOr_some_of_ne hs, pyOr_some_of_ne hs])
  · intro hw
    simp [boardSelectCmd, hw]

/-- C10 amended witness: selecting board `Sprint` stores `b1`, and
`card list` without `--board` behaves exactly as with `--board b1`. -/
theorem default_board_fallback_check :
    (boardSelectCmd "Sprint" none (fun _ => .ok wSprint1)).storedBoard = some "b1"
    ∧ cardListCmd false none none none (some "b1")
        ambResolver noColResolver noCards
      = cardListCmd false (some "b1") none none none
        ambResolver noColResolver noCards := by
  constructor
  · exact (default_board_fallback false "b1" "b1" "c" "n" "Sprint" none none none none
      (fun _ => .ok wSprint1) noColResolver noCards (fun _ _ => .ok colTodo)
      wSprint1).2.2.2.2 rfl
  · exact (default_board_fallback false "b1" "b1" "c" "n" "Sprint" none none none none
      ambResolver noColResolver noCards (fun _ _ => .ok colTodo)
      wSprint1).1 (by decide)

end Favro
